import Mathlib

/-!
# Frame-cadence scheduler: shallow embedding and verification

This file embeds the frame-cadence scheduler of the repository (the
"frame cadence adapter" sitting between a video capture source and an
encoder pipeline) as executable Lean definitions, and settles a list of
claims about it.

The repository ships only the component's unit-test file
(`video/frame_cadence_adapter_unittest.cc`); the implementation unit
itself is not among the sources.  The definitions below are therefore
modelled from the design document (spec.md), with every behavioural
point that the document leaves open, or states in a way the unit tests
contradict, resolved the way the unit tests pin it down.  Each such
definition carries a doc comment starting `Modelled from the spec:`.

Conventions:
* times are naturals counting microseconds;
* frame rates are naturals (frames per second), positive where used;
* "unset" capture/NTP timestamps are encoded as zero, as the spec says.
-/

namespace FrameCadence

/-- Microseconds per second. -/
def usPerSec : Nat := 1000000

/-- Modelled from the spec: `kRefreshPeriod`, "a small integer constant";
the interface constant `kOnDiscardedFrameRefreshFramePeriod` referenced
symbolically throughout the unit tests.  Its concrete value (3) is the
one consistent with the public WebRTC interface the tests compile
against. -/
def kOnDiscardedFrameRefreshFramePeriod : Nat := 3

/-- Modelled from the spec: the idle repeat period, "a long, fixed
heartbeat interval, constant across configurations"
(`kZeroHertzIdleRepeatRatePeriod`), in microseconds (1000 ms). -/
def kZeroHertzIdleRepeatRatePeriodUs : Nat := 1000000

/-- A video frame as the scheduler sees it: an opaque payload is
irrelevant, only the capture timestamp (microseconds) and NTP timestamp
(milliseconds) matter.  Zero encodes "unset". -/
structure Frame where
  timestampUs : Nat
  ntpTimeMs : Nat
deriving Repr, DecidableEq

/-- State of a pending repeat chain.  `origin` is the absolute time the
original frame was first delivered; `scheduled` is the absolute fire
time of the pending repeat; the original (capture, NTP) timestamps are
retained so that re-deliveries can advance them from the originals. -/
structure ScheduledRepeat where
  origin : Nat
  idle : Bool
  scheduled : Nat
  origTimestampUs : Nat
  origNtpTimeMs : Nat
deriving Repr, DecidableEq

/-- Per-layer quality tracker: `none` means the layer is disabled;
`some c` means the layer is enabled and `c` records whether its quality
has converged. -/
abbrev LayerTracker := Option Bool

/-- Layer feedback datum, used to store feedback for indices beyond the
configured layer count (accepted and stored, ignored for aggregates). -/
inductive LayerFeedback where
  | status (index : Nat) (enabled : Bool)
  | convergence (index : Nat) (converged : Bool)
deriving Repr, DecidableEq

/-- Modelled from the spec: aggregate convergence is true iff the layer
set is non-empty and every enabled layer is converged (a disabled layer
does not gate convergence); an empty configured layer set is treated as
unconverged. -/
def hasQualityConverged (trackers : List LayerTracker) : Bool :=
  !trackers.isEmpty && trackers.all (fun t => t.getD true)

/-- Reset quality convergence: every enabled layer becomes unconverged,
disabled layers stay disabled. -/
def resetConvergence (trackers : List LayerTracker) : List LayerTracker :=
  trackers.map (fun t => t.map (fun _ => false))

/-- Modelled from the spec: restriction precedence.  A restriction is
retained only while it does not exceed the constraint `max_fps`; a
constraint ceiling below the restriction drops it. -/
def normalizeRestriction (r : Option Nat) (maxFps : Nat) : Option Nat :=
  match r with
  | none => none
  | some v => if v ≤ maxFps then some v else none

/-- State of the decoupled (zero-hertz) scheduler. -/
structure ZeroHertzState where
  maxFps : Nat
  numLayers : Nat
  restrictedMaxFps : Option Nat
  queuedFrames : List Frame
  currentFrameId : Nat
  scheduledRepeat : Option ScheduledRepeat
  layerTrackers : List LayerTracker
  storedOutOfRange : List LayerFeedback
  refreshRunning : Bool
  refreshGen : Nat
deriving Repr, DecidableEq

/-- The constraint-derived frame period (`1 / max_fps`), microseconds. -/
def frameDelayUs (s : ZeroHertzState) : Nat :=
  usPerSec / s.maxFps

/-- The effective max fps: the restriction when one is active, else the
constraint `max_fps`. -/
def effectiveMaxFps (s : ZeroHertzState) : Nat :=
  s.restrictedMaxFps.getD s.maxFps

/-- The short (non-idle) repeat period `1 / effective_max_fps`. -/
def shortRepeatDelayUs (s : ZeroHertzState) : Nat :=
  usPerSec / effectiveMaxFps s

/-- Delay to the next repeat: idle period when converged, else the
short repeat period. -/
def repeatDurationUs (s : ZeroHertzState) (idle : Bool) : Nat :=
  if idle then kZeroHertzIdleRepeatRatePeriodUs else shortRepeatDelayUs s

/-- Kinds of tasks living on the scheduler's delayed-task queue.
`initialCadence` delivers the front of the frame queue (the deferred
processing armed by `OnFrame`); `repeatCadence` re-delivers the last
frame (stale instances are identified by their frame id);
`refreshTick` is the periodic refresh-frame requester (stale instances
are identified by a generation number). -/
inductive TaskKind where
  | initialCadence
  | repeatCadence (frameId : Nat)
  | refreshTick (gen : Nat)
deriving Repr, DecidableEq

/-- True for repeat-cadence tasks. -/
def TaskKind.isRepeat : TaskKind → Bool
  | .repeatCadence _ => true
  | _ => false

/-- True for refresh-tick tasks. -/
def TaskKind.isRefresh : TaskKind → Bool
  | .refreshTick _ => true
  | _ => false

/-- A pending delayed task: absolute due time plus kind. -/
structure PendingTask where
  due : Nat
  kind : TaskKind
deriving Repr, DecidableEq

/-- Callbacks emitted towards the registered sink. -/
inductive OutEvent where
  | frameOut (time : Nat) (dropped : Bool) (frame : Frame)
  | discarded (time : Nat)
  | refreshRequested (time : Nat)
deriving Repr, DecidableEq

/-- The world: current time, a liveness flag (false once teardown of the
scheduler or its sink has begun), the scheduler state, the pending
delayed tasks, and the trace of emitted callbacks. -/
structure World where
  now : Nat
  alive : Bool
  zh : ZeroHertzState
  tasks : List PendingTask
  out : List OutEvent
deriving Repr, DecidableEq

/-- Number of refresh-frame requests in a trace. -/
def refreshCount (es : List OutEvent) : Nat :=
  (es.filter fun e => match e with
    | .refreshRequested _ => true
    | _ => false).length

/-- Frame deliveries in a trace. -/
def frameDeliveries (es : List OutEvent) : List OutEvent :=
  es.filter fun e => match e with
    | .frameOut _ _ _ => true
    | _ => false

/-- Modelled from the spec: start the periodic refresh-frame requester
if it is not already running.  The first request comes
`kOnDiscardedFrameRefreshFramePeriod` frame-periods from now, after
which requests repeat once per frame-period. -/
def maybeStartRefreshRequester (w : World) : World :=
  if w.zh.refreshRunning then w
  else
    let g := w.zh.refreshGen + 1
    { w with
      zh := { w.zh with refreshRunning := true, refreshGen := g }
      tasks := w.tasks ++
        [⟨w.now + kOnDiscardedFrameRefreshFramePeriod * frameDelayUs w.zh,
          .refreshTick g⟩] }

/-- Modelled from the spec: cancellation of the refresh requester is
immediate (the pending tick is removed and the running flag cleared). -/
def stopRefreshRequester (w : World) : World :=
  { w with
    zh := { w.zh with refreshRunning := false }
    tasks := w.tasks.filter (fun t => !t.kind.isRefresh) }

/-- Modelled from the spec: activation of the decoupled mode with
constraints `maxFps` and `numLayers` configured spatial layers, at time
`now`.  All configured layers start enabled and unconverged, and the
refresh requester starts waiting for the first frame. -/
def zhInit (maxFps numLayers : Nat) (now : Nat) : World :=
  maybeStartRefreshRequester
    { now := now
      alive := true
      zh :=
        { maxFps := maxFps
          numLayers := numLayers
          restrictedMaxFps := none
          queuedFrames := []
          currentFrameId := 0
          scheduledRepeat := none
          layerTrackers := List.replicate numLayers (some false)
          storedOutOfRange := []
          refreshRunning := false
          refreshGen := 0 }
      tasks := []
      out := [] }

/-- Modelled from the spec: arm the repeat chain.  `base` is the
reference time the delay is counted from (the delivery that the repeat
repeats, or the previous scheduled fire time), so that queueing delay on
one repeat does not shift later repeats.  On first arming, the original
frame's timestamps and the chain origin are recorded. -/
def scheduleRepeat (w : World) (base : Nat) (idle : Bool) : World :=
  let s := w.zh
  let front := s.queuedFrames.headD ⟨0, 0⟩
  let r0 : ScheduledRepeat :=
    match s.scheduledRepeat with
    | some r => r
    | none =>
      { origin := base, idle := idle, scheduled := base
        origTimestampUs := front.timestampUs
        origNtpTimeMs := front.ntpTimeMs }
  let fire := base + repeatDurationUs s idle
  let r : ScheduledRepeat := { r0 with idle := idle, scheduled := fire }
  { w with
    zh := { s with scheduledRepeat := some r }
    tasks := w.tasks ++ [⟨fire, .repeatCadence s.currentFrameId⟩] }

/-- Modelled from the spec: the frame produced by a re-delivery.  The
capture/NTP timestamps are advanced by the elapsed scheduled time since
the chain origin, but only when the originals were set (non-zero);
unset timestamps are propagated as-is. -/
def repeatFrameCopy (r : ScheduledRepeat) : Frame :=
  { timestampUs :=
      if r.origTimestampUs > 0 then
        r.origTimestampUs + (r.scheduled - r.origin)
      else r.origTimestampUs
    ntpTimeMs :=
      if r.origNtpTimeMs > 0 then
        r.origNtpTimeMs + (r.scheduled - r.origin) / 1000
      else r.origNtpTimeMs }

/-- Modelled from the spec: deferred processing of a frame entry
(deliver the front of the queue now; if it was the only queued frame,
keep it and arm the repeat chain based on current aggregate
convergence, else drop it). -/
def execInitialCadence (w : World) : World :=
  match w.zh.queuedFrames with
  | [] => w
  | f :: rest =>
    let w1 := { w with out := w.out ++ [.frameOut w.now false f] }
    if rest.isEmpty then
      scheduleRepeat w1 w.now (hasQualityConverged w.zh.layerTrackers)
    else
      { w1 with zh := { w1.zh with queuedFrames := rest } }

/-- Modelled from the spec: a repeat timer fires.  A stale instance
(superseded frame id, or no pending repeat) is a no-op.  Otherwise the
last frame is re-delivered with timestamps advanced from the scheduled
(not actual) fire time, and the next repeat is armed at
`previous_scheduled_time + delay` with the delay selected by the
current aggregate convergence. -/
def execRepeatCadence (w : World) (frameId : Nat) : World :=
  if frameId ≠ w.zh.currentFrameId then w
  else
    match w.zh.scheduledRepeat with
    | none => w
    | some r =>
      let w1 := { w with out := w.out ++ [.frameOut w.now false (repeatFrameCopy r)] }
      scheduleRepeat w1 r.scheduled (hasQualityConverged w.zh.layerTrackers)

/-- Modelled from the spec: a refresh tick fires.  A stale instance is a
no-op; a live one emits `RequestRefreshFrame` and re-arms one
frame-period ahead, indefinitely. -/
def execRefreshTick (w : World) (gen : Nat) : World :=
  if w.zh.refreshRunning && gen == w.zh.refreshGen then
    { w with
      out := w.out ++ [.refreshRequested w.now]
      tasks := w.tasks ++ [⟨w.now + frameDelayUs w.zh, .refreshTick gen⟩] }
  else w

/-- Execute one task.  Modelled from the spec: pending tasks check the
liveness flag shared with the scheduler before every deferred effect,
so a task firing after teardown is a no-op. -/
def execTask (w : World) (k : TaskKind) : World :=
  if !w.alive then w
  else
    match k with
    | .initialCadence => execInitialCadence w
    | .repeatCadence fid => execRepeatCadence w fid
    | .refreshTick g => execRefreshTick w g

/-- Extract the pending task with the smallest due time (first in
posting order among ties), together with the remaining tasks. -/
def extractEarliest : List PendingTask → Option (PendingTask × List PendingTask)
  | [] => none
  | t :: ts =>
    match extractEarliest ts with
    | none => some (t, [])
    | some (u, rest) =>
      if t.due ≤ u.due then some (t, ts) else some (u, t :: rest)

/-- Run the delayed-task queue up to (and including) absolute time
`upTo`: repeatedly execute the earliest due task, with the clock
showing the later of the task's due time and the current time (an
overdue task runs at the time the execution context resumes).  `fuel`
bounds the number of task executions. -/
def runUpTo : Nat → Nat → World → World
  | 0, upTo, w => { w with now := max w.now upTo }
  | fuel + 1, upTo, w =>
    match extractEarliest w.tasks with
    | none => { w with now := max w.now upTo }
    | some (t, rest) =>
      if t.due ≤ upTo then
        runUpTo fuel upTo
          (execTask { w with tasks := rest, now := max w.now t.due } t.kind)
      else { w with now := max w.now upTo }

/-- The simulated execution context skips forward: the clock jumps
without running the tasks that fell due in the skipped span; they run
(late) when execution resumes. -/
def skipForwardTo (w : World) (t : Nat) : World :=
  { w with now := max w.now t }

/-- Modelled from the spec: frame entry in decoupled mode.  Cancels the
pending repeat chain and the refresh requester, assumes all enabled
layers unconverged after frame entry, replaces a retained repeated
frame by the new one, and schedules deferred delivery one
constraint-derived frame-period after submission. -/
def zhOnFrame (w : World) (f : Frame) : World :=
  if !w.alive then w
  else
    let s := w.zh
    let queued :=
      (if s.scheduledRepeat.isSome then s.queuedFrames.tail else s.queuedFrames) ++ [f]
    let s' :=
      { s with
        queuedFrames := queued
        currentFrameId := s.currentFrameId + 1
        scheduledRepeat := none
        refreshRunning := false
        layerTrackers := resetConvergence s.layerTrackers }
    { w with
      zh := s'
      tasks :=
        (w.tasks.filter fun t => !t.kind.isRepeat && !t.kind.isRefresh) ++
          [⟨w.now + frameDelayUs s, .initialCadence⟩] }

/-- Modelled from the spec: a discarded-frame notification forwards the
discard to the sink and starts the refresh requester when it is not
already running; delivery scheduling is unaffected. -/
def zhOnDiscardedFrame (w : World) : World :=
  if !w.alive then w
  else
    maybeStartRefreshRequester { w with out := w.out ++ [.discarded w.now] }

/-- Modelled from the spec: a constraints change cancels the pending
timer chain without re-arming (the chain resumes on the next frame),
re-derives the frame period from the new `max_fps`, drops an active
restriction whose fps exceeds the new ceiling, resets the configured
layers to unconverged and restarts the refresh requester waiting for a
frame. -/
def zhOnConstraintsChanged (w : World) (newMaxFps : Nat) : World :=
  if !w.alive then w
  else
    let s := w.zh
    let g := s.refreshGen + 1
    let s' : ZeroHertzState :=
      { maxFps := newMaxFps
        numLayers := s.numLayers
        restrictedMaxFps := normalizeRestriction s.restrictedMaxFps newMaxFps
        queuedFrames := []
        currentFrameId := s.currentFrameId + 1
        scheduledRepeat := none
        layerTrackers := List.replicate s.numLayers (some false)
        storedOutOfRange := s.storedOutOfRange
        refreshRunning := true
        refreshGen := g }
    { w with
      zh := s'
      tasks :=
        [⟨w.now + kOnDiscardedFrameRefreshFramePeriod * (usPerSec / newMaxFps),
          .refreshTick g⟩] }

/-- Modelled from the spec: a restriction update only changes the
effective repeat rate (subordinate to the constraint ceiling); the
pending chain continues and picks up the new rate at its next arming. -/
def zhUpdateVideoSourceRestrictions (w : World) (r : Option Nat) : World :=
  if !w.alive then w
  else
    { w with zh := { w.zh with restrictedMaxFps := normalizeRestriction r w.zh.maxFps } }

/-- Modelled from the spec: reconfiguring the layer count resets the map
to "all configured layers unconverged". -/
def zhSetLayerCount (w : World) (n : Nat) : World :=
  if !w.alive then w
  else
    { w with
      zh := { w.zh with
        numLayers := n
        layerTrackers := List.replicate n (some false) } }

/-- Modelled from the spec: `UpdateLayerStatus` at the state level.
In-range indices upsert the tracker (enabling assumes unconverged until
heard otherwise, disabling forgets convergence); out-of-range feedback
is accepted and stored without effect on the trackers. -/
def updateLayerStatus (s : ZeroHertzState) (i : Nat) (enabled : Bool) : ZeroHertzState :=
  if h : i < s.layerTrackers.length then
    let t := s.layerTrackers.get ⟨i, h⟩
    let t' : LayerTracker := if enabled then some (t.getD false) else none
    { s with layerTrackers := s.layerTrackers.set i t' }
  else
    { s with storedOutOfRange := s.storedOutOfRange ++ [.status i enabled] }

/-- Modelled from the spec: `UpdateLayerQualityConvergence` at the state
level.  Convergence feedback applies only to enabled in-range layers;
out-of-range feedback is accepted and stored without effect. -/
def updateLayerQualityConvergence (s : ZeroHertzState) (i : Nat) (converged : Bool) :
    ZeroHertzState :=
  if h : i < s.layerTrackers.length then
    let t := s.layerTrackers.get ⟨i, h⟩
    { s with layerTrackers := s.layerTrackers.set i (t.map (fun _ => converged)) }
  else
    { s with storedOutOfRange := s.storedOutOfRange ++ [.convergence i converged] }

/-- World-level wrapper for `updateLayerStatus`. -/
def zhUpdateLayerStatus (w : World) (i : Nat) (enabled : Bool) : World :=
  if !w.alive then w else { w with zh := updateLayerStatus w.zh i enabled }

/-- World-level wrapper for `updateLayerQualityConvergence`. -/
def zhUpdateLayerQualityConvergence (w : World) (i : Nat) (converged : Bool) : World :=
  if !w.alive then w else { w with zh := updateLayerQualityConvergence w.zh i converged }

/-- Modelled from the spec: `ProcessKeyFrameRequest` is a debounced
trigger.  It always resets quality convergence (the next encoded frame
is a key frame needing refinement).  When no repeat is pending, or a
short repeat is pending, or the pending idle repeat fires within one
frame-period, nothing more happens; otherwise the pending idle repeat
is replaced by a short repeat armed now.  It never emits
`RequestRefreshFrame` itself (the periodic requester is the only
emitter), so an explicit request is coalesced with, never duplicated
against, the periodic timer. -/
def zhProcessKeyFrameRequest (w : World) : World :=
  if !w.alive then w
  else
    let s := { w.zh with layerTrackers := resetConvergence w.zh.layerTrackers }
    let w1 := { w with zh := s }
    match s.scheduledRepeat with
    | none => w1
    | some r =>
      if !r.idle then w1
      else if r.scheduled ≤ w1.now + frameDelayUs s then w1
      else
        let fid := s.currentFrameId + 1
        let fire := w1.now + shortRepeatDelayUs s
        { w1 with
          zh := { s with
            currentFrameId := fid
            scheduledRepeat := some { r with idle := false, scheduled := fire } }
          tasks :=
            (w1.tasks.filter fun t => !t.kind.isRepeat) ++ [⟨fire, .repeatCadence fid⟩] }

/-- Teardown begins: the liveness flag shared with all pending-task
closures is cleared.  In-flight tasks remain on the queue but detect
the invalidation when they run. -/
def destroy (w : World) : World :=
  { w with alive := false }

/-! ## Passthrough mode

Modelled from the spec, with the delivery/flag discipline pinned by the
unit test `CountsOutstandingFramesToProcess`: each `OnFrame` posts a
task capturing the frame and increments a counter of frames scheduled
for processing; each posted task delivers its frame on the execution
context, reading the counter (and decrementing it) to decide the
`dropped_previous_frame` flag — the flag is set exactly when more than
one frame was still outstanding at delivery time. -/

/-- Passthrough-mode state: current time, the frames posted to the
execution context but not yet processed (with their post times), and
the trace of emitted callbacks. -/
structure PassthroughState where
  now : Nat
  pending : List (Nat × Frame)
  out : List OutEvent
deriving Repr, DecidableEq

/-- Passthrough `OnFrame`: post the frame for processing on the
execution context. -/
def ptOnFrame (s : PassthroughState) (f : Frame) : PassthroughState :=
  { s with pending := s.pending ++ [(s.now, f)] }

/-- Deliveries performed when the execution context turn runs:
`outstanding` is the number of frames still scheduled for processing
when the first of them is delivered; each delivery's
`dropped_previous_frame` flag is true exactly when more than one frame
was outstanding at that delivery. -/
def ptDeliveries (outstanding : Nat) : List (Nat × Frame) → List OutEvent
  | [] => []
  | (t, f) :: rest =>
    .frameOut t (decide (1 < outstanding)) f :: ptDeliveries (outstanding - 1) rest

/-- Run one execution-context turn in passthrough mode: every posted
frame is delivered in posting order. -/
def ptRunTurn (s : PassthroughState) : PassthroughState :=
  { s with
    pending := []
    out := s.out ++ ptDeliveries s.pending.length s.pending }

/-! ## Concrete scenarios

Executable runs used to witness and to refute claims; each mirrors a
scenario of the repository's unit tests. -/

/-- Decoupled mode at `max_fps = 1`, a frame with timestamps `ts0`
(capture, microseconds) and `ntp0` (NTP, milliseconds) submitted at
time 0 right after activation. -/
def c4Start (ts0 ntp0 : Nat) : World :=
  zhOnFrame (zhInit 1 0 0) ⟨ts0, ntp0⟩

/-- The frame the `c4Start` scenario delivers `k` frame-periods after
submission: the original frame first, then repeats with timestamps
advanced by the elapsed time — unless unset (zero), in which case they
propagate unchanged. -/
def c4FrameAt (ts0 ntp0 : Nat) : Nat → Frame
  | 0 => ⟨ts0, ntp0⟩
  | k + 1 =>
    ⟨if ts0 > 0 then ts0 + (k + 1) * usPerSec else ts0,
     if ntp0 > 0 then ntp0 + (k + 1) * 1000 else ntp0⟩

/-- The `k`-th delivery of the `c4Start` scenario. -/
def c4Delivery (ts0 ntp0 k : Nat) : OutEvent :=
  .frameOut ((k + 1) * usPerSec) false (c4FrameAt ts0 ntp0 k)

/-- The first `n + 1` deliveries of the `c4Start` scenario. -/
def c4Trace (ts0 ntp0 n : Nat) : List OutEvent :=
  (List.range (n + 1)).map (c4Delivery ts0 ntp0)

/-- The scheduler state of the `c4Start` scenario after the original
delivery and `n` repeats, parametrized by the emitted trace. -/
def c4State (ts0 ntp0 n : Nat) (o : List OutEvent) : World :=
  { now := (n + 1) * usPerSec
    alive := true
    zh :=
      { maxFps := 1
        numLayers := 0
        restrictedMaxFps := none
        queuedFrames := [⟨ts0, ntp0⟩]
        currentFrameId := 1
        scheduledRepeat := some ⟨usPerSec, false, (n + 2) * usPerSec, ts0, ntp0⟩
        layerTrackers := []
        storedOutOfRange := []
        refreshRunning := false
        refreshGen := 1 }
    tasks := [⟨(n + 2) * usPerSec, .repeatCadence 1⟩]
    out := o }

/-- The `c4Start` scenario run until `n` repeats have fired (one task
falls due per frame-period). -/
def c4World (ts0 ntp0 : Nat) : Nat → World
  | 0 => runUpTo 2 usPerSec (c4Start ts0 ntp0)
  | n + 1 => runUpTo 2 ((n + 2) * usPerSec) (c4World ts0 ntp0 n)

/-- Slight contention: the execution context of the `c4Start` scenario
is paused until 999999 μs (just short of the scheduled 1000000 μs
delivery) and then resumes. -/
def slightContentionRun : World :=
  runUpTo 8 1000000 (skipForwardTo (c4Start 5000000 4711) 999999)

/-- Heavy contention: the execution context of the `c4Start` scenario
is paused until 1000001 μs — past the scheduled 1000000 μs delivery —
and resumes only then. -/
def heavyContentionRun : World :=
  runUpTo 8 1000001 (skipForwardTo (c4Start 5000000 4711) 1000001)

/-- Convergence scenario (mirroring `RepeatsPassedFramesUntilConvergence`):
`max_fps = 10` (frame period 100000 μs), 2 configured layers, a frame
at time 0; layer 1 reports converged at 250000 μs and layer 0 at
350000 μs.  `convergeMid` is the state at 350000 μs, right after the
last layer converged. -/
def convergeMid : World :=
  zhUpdateLayerQualityConvergence
    (runUpTo 10 350000
      (zhUpdateLayerQualityConvergence
        (runUpTo 10 250000 (zhOnFrame (zhInit 10 2 0) ⟨0, 0⟩)) 1 true))
    0 true

/-- The convergence scenario continued until 2500000 μs. -/
def convergeRun : World :=
  runUpTo 40 2500000 convergeMid

/-- Refresh scenario (mirroring `RequestsRefreshFramesUntilArrival`):
decoupled mode at `max_fps = 10` activated at time 0 with no frame for
a second. -/
def refreshIdleRun : World :=
  runUpTo 20 1000000 (zhInit 10 0 0)

/-- Continuation of `refreshIdleRun`: a frame arrives at 1000000 μs and
another second passes. -/
def refreshAfterFrameRun : World :=
  runUpTo 40 2000000 (zhOnFrame refreshIdleRun ⟨0, 0⟩)

/-- A frame is accepted at time 0 in decoupled mode at `max_fps = 10`
and nothing else happens for a second. -/
def frameOnlyRun : World :=
  runUpTo 40 1000000 (zhOnFrame (zhInit 10 0 0) ⟨0, 0⟩)

/-- A frame accepted at time 0 (`max_fps = 10`), run until 200000 μs:
the scheduler is short-repeating, two frame-periods after the accepted
frame. -/
def shortRepeatRun : World :=
  runUpTo 20 200000 (zhOnFrame (zhInit 10 0 0) ⟨0, 0⟩)

/-- A frame just accepted at time 0 (`max_fps = 10`): its deferred
delivery is still in flight, so no repeat is pending — the situation
one frame-period or less after an accepted frame. -/
def justAcceptedRun : World :=
  zhOnFrame (zhInit 10 0 0) ⟨0, 0⟩

/-- One enabled converged layer at `max_fps = 8` (frame period
125000 μs): after delivery at 125000 μs an idle repeat is armed for
1125000 μs; run until 250000 μs. -/
def idlePendingRun : World :=
  runUpTo 20 250000
    (zhUpdateLayerQualityConvergence
      (zhUpdateLayerStatus (zhOnFrame (zhInit 8 1 0) ⟨0, 0⟩) 0 true) 0 true)

/-- A torn-down scheduler with a refresh tick still in flight. -/
def deadWorld : World :=
  destroy (zhOnDiscardedFrame (zhInit 10 0 0))

/-! ## Helper lemmas -/

/-- Passthrough turns deliver exactly as many callbacks as there were
posted frames. -/
theorem ptDeliveries_length (n : Nat) (ps : List (Nat × Frame)) :
    (ptDeliveries n ps).length = ps.length := by
  induction ps generalizing n with
  | nil => rfl
  | cons p ps ih => simp [ptDeliveries, ih]

/-- Elementwise characterization of a passthrough turn: the `k`-th
delivery carries the `k`-th posted frame, flagged dropped exactly when
more than one frame was still outstanding. -/
theorem ptDeliveries_getElem (n k : Nat) (ps : List (Nat × Frame)) :
    (ptDeliveries n ps)[k]? =
      (ps[k]?).map (fun p => .frameOut p.1 (decide (1 < n - k)) p.2) := by
  induction ps generalizing n k with
  | nil => simp [ptDeliveries]
  | cons p ps ih =>
    cases k with
    | zero => simp [ptDeliveries]
    | succ k => simpa [ptDeliveries, Nat.sub_sub, Nat.add_comm] using ih (n - 1) k

/-- After teardown has begun, draining the task queue emits nothing. -/
theorem runUpTo_dead (fuel upTo : Nat) (w : World) (h : w.alive = false) :
    (runUpTo fuel upTo w).out = w.out := by
  induction fuel generalizing w with
  | zero => rfl
  | succ fuel ih =>
    rw [runUpTo]
    cases hx : extractEarliest w.tasks with
    | none => rfl
    | some p =>
      by_cases hdue : p.1.due ≤ upTo
      · simp only [hdue, if_true]
        rw [ih]
        · simp [execTask, h]
        · simp [execTask, h]
      · simp [hdue]

/-- Keyframe requests never emit a callback themselves. -/
theorem processKeyFrameRequest_out (w : World) :
    (zhProcessKeyFrameRequest w).out = w.out := by
  rcases w with ⟨now, alive, zh, tasks, out⟩
  cases alive
  · rfl
  · rcases hsr : zh.scheduledRepeat with _ | ⟨o, idle, sch, ts, ntp⟩
    · simp [zhProcessKeyFrameRequest, hsr]
    · cases idle
      · simp [zhProcessKeyFrameRequest, hsr]
      · by_cases hd : sch ≤ now + usPerSec / zh.maxFps
        · simp [zhProcessKeyFrameRequest, hsr, frameDelayUs, hd]
        · simp [zhProcessKeyFrameRequest, hsr, frameDelayUs, hd]

/-- One frame-period step of the repeat chain in the `c4Start`
scenario: from the state after `n` repeats, running one more
frame-period fires exactly the pending repeat, emitting the frame with
timestamps advanced from the scheduled times and re-arming one short
period after the previous scheduled fire. -/
theorem c4_step (ts0 ntp0 n : Nat) (o : List OutEvent) :
    runUpTo 2 ((n + 2) * usPerSec) (c4State ts0 ntp0 n o)
      = c4State ts0 ntp0 (n + 1) (o ++ [c4Delivery ts0 ntp0 (n + 1)]) := by
  have h1 : (n + 1) * usPerSec ≤ (n + 2) * usPerSec := by
    simp only [usPerSec]
    omega
  have h2 : (n + 2) * usPerSec - usPerSec = (n + 1) * usPerSec := by
    simp only [usPerSec]
    omega
  have h3 : (n + 1) * usPerSec / 1000 = (n + 1) * 1000 := by
    show (n + 1) * 1000000 / 1000 = (n + 1) * 1000
    rw [Nat.mul_div_assoc _ (by norm_num : (1000 : Nat) ∣ 1000000)]
  have h6 : ¬ usPerSec = 0 := by norm_num [usPerSec]
  simp only [c4State, runUpTo, extractEarliest, execTask, execRepeatCadence,
    scheduleRepeat, repeatFrameCopy, repeatDurationUs, shortRepeatDelayUs,
    effectiveMaxFps, hasQualityConverged, c4Delivery, c4FrameAt]
  simp only [Nat.max_eq_right h1, h2, h3, Nat.div_one]
  simp [h6, World.mk.injEq, ZeroHertzState.mk.injEq, ScheduledRepeat.mk.injEq,
    PendingTask.mk.injEq, OutEvent.frameOut.injEq, Frame.mk.injEq,
    List.cons.injEq, usPerSec]
  all_goals omega

/-- The `c4Start` scenario after `n` repeat firings equals the closed
form: the delivery trace `c4Trace` and the `c4State` scheduler state. -/
theorem c4World_eq (ts0 ntp0 n : Nat) :
    c4World ts0 ntp0 n = c4State ts0 ntp0 n (c4Trace ts0 ntp0 n) := by
  induction n with
  | zero =>
    show runUpTo 2 usPerSec (c4Start ts0 ntp0) = _
    simp only [c4Start, zhInit, maybeStartRefreshRequester, zhOnFrame,
      resetConvergence, frameDelayUs, runUpTo, extractEarliest, execTask,
      execInitialCadence, scheduleRepeat, repeatDurationUs, shortRepeatDelayUs,
      effectiveMaxFps, hasQualityConverged, c4State, c4Trace, c4Delivery, c4FrameAt]
    norm_num [usPerSec, List.filter]
    simp [c4Delivery, c4FrameAt, List.range_succ, usPerSec]
  | succ n ih =>
    rw [c4World, ih, c4_step]
    have : c4Trace ts0 ntp0 (n + 1)
        = c4Trace ts0 ntp0 n ++ [c4Delivery ts0 ntp0 (n + 1)] := by
      simp [c4Trace, List.range_succ]
    rw [this]

/-! ## Claims -/

/-- Claim C1, counterexample.  In decoupled mode at `max_fps = 1`, a
frame submitted at time 0 is not delivered at the time of submission:
running the execution context at time 0 emits nothing, and the delivery
only appears one frame-period (1000000 μs) after submission.  This
refutes "immediately enqueues delivery of `f` at the current time …
the first delivery of each newly submitted frame is emitted at the time
of submission rather than being delayed by a frame-period". -/
theorem claim1_counterexample :
    (runUpTo 4 0 (c4Start 5000000 4711)).out = [] ∧
      (runUpTo 8 usPerSec (c4Start 5000000 4711)).out
        = [.frameOut usPerSec false ⟨5000000, 4711⟩] :=
  ⟨rfl, rfl⟩

/-- Claim C1, amended: in decoupled mode, `OnFrame(f)` cancels any
pending repeat timer (and the refresh requester) and schedules the
deferred delivery of `f` one constraint-derived frame-period after
submission (not at the submission instant); `f` goes to the back of the
frame queue. -/
theorem claim1_amended (w : World) (f : Frame) (halive : w.alive = true) :
    (zhOnFrame w f).zh.scheduledRepeat = none ∧
      (zhOnFrame w f).zh.currentFrameId = w.zh.currentFrameId + 1 ∧
      (∀ t ∈ (zhOnFrame w f).tasks,
        t.kind.isRepeat = false ∧ t.kind.isRefresh = false) ∧
      (zhOnFrame w f).tasks.getLast?
        = some ⟨w.now + frameDelayUs w.zh, .initialCadence⟩ ∧
      (zhOnFrame w f).zh.queuedFrames.getLast? = some f := by
  refine ⟨?_, ?_, ?_, ?_, ?_⟩ <;> simp only [zhOnFrame, halive, Bool.not_true, if_false]
  · rfl
  · rfl
  · intro t ht
    rcases List.mem_append.1 ht with hmem | hmem
    · have := (List.mem_filter.1 hmem).2
      simp only [Bool.and_eq_true, Bool.not_eq_true'] at this
      exact this
    · simp only [List.mem_singleton] at hmem
      subst hmem
      exact ⟨rfl, rfl⟩
  · exact List.getLast?_concat _
  · exact List.getLast?_concat _

/-- Witness for `claim1_amended` at a concrete input. -/
theorem claim1_amended_witness :
    (zhInit 1 0 0).alive = true ∧
      ((zhOnFrame (zhInit 1 0 0) ⟨7, 8⟩).zh.scheduledRepeat = none ∧
        (zhOnFrame (zhInit 1 0 0) ⟨7, 8⟩).zh.currentFrameId
          = (zhInit 1 0 0).zh.currentFrameId + 1 ∧
        (∀ t ∈ (zhOnFrame (zhInit 1 0 0) ⟨7, 8⟩).tasks,
          t.kind.isRepeat = false ∧ t.kind.isRefresh = false) ∧
        (zhOnFrame (zhInit 1 0 0) ⟨7, 8⟩).tasks.getLast?
          = some ⟨(zhInit 1 0 0).now + frameDelayUs (zhInit 1 0 0).zh, .initialCadence⟩ ∧
        (zhOnFrame (zhInit 1 0 0) ⟨7, 8⟩).zh.queuedFrames.getLast? = some ⟨7, 8⟩) :=
  ⟨rfl, claim1_amended (zhInit 1 0 0) ⟨7, 8⟩ rfl⟩

/-- Claim C2, counterexample.  Two frames queued within one passthrough
execution-context turn do not collapse to a single delivery: both are
delivered (the first flagged `dropped_previous_frame = true`, the
second `false`), so the turn yields two callbacks, not one. -/
theorem claim2_counterexample :
    (ptRunTurn (ptOnFrame (ptOnFrame ⟨0, [], []⟩ ⟨1, 1⟩) ⟨2, 2⟩)).out
        = [.frameOut 0 true ⟨1, 1⟩, .frameOut 0 false ⟨2, 2⟩] ∧
      (ptRunTurn (ptOnFrame (ptOnFrame ⟨0, [], []⟩ ⟨1, 1⟩) ⟨2, 2⟩)).out.length = 2 :=
  ⟨rfl, rfl⟩

/-- Claim C2, amended: in passthrough mode a single `OnFrame` yields
exactly one callback with `dropped_previous_frame = false`; when
multiple frames are queued within one execution-context turn, every
queued frame is delivered in posting order, the `k`-th of `n`
deliveries carrying `dropped_previous_frame = (n - k > 1)` — true on
every delivery that still had further frames outstanding and false on
the turn's last delivery; a frame delivered after the turn completes
yields its own separate callback with the flag false. -/
theorem claim2_amended :
    (∀ (now : Nat) (o : List OutEvent) (f : Frame),
      ptRunTurn (ptOnFrame ⟨now, [], o⟩ f)
        = ⟨now, [], o ++ [.frameOut now false f]⟩) ∧
      (∀ s : PassthroughState,
        (ptRunTurn s).out = s.out ++ ptDeliveries s.pending.length s.pending) ∧
      (∀ n : Nat, ∀ ps : List (Nat × Frame),
        (ptDeliveries n ps).length = ps.length) ∧
      (∀ (n k : Nat) (ps : List (Nat × Frame)),
        (ptDeliveries n ps)[k]? =
          (ps[k]?).map (fun p => .frameOut p.1 (decide (1 < n - k)) p.2)) :=
  ⟨fun _ _ _ => rfl, fun _ => rfl, ptDeliveries_length, ptDeliveries_getElem⟩

/-- Claim C3, counterexample.  In the heavy-contention scenario the
delivery task is scheduled for 1000000 μs but the execution context is
paused until 1000001 μs; the delivery then occurs at 1000001 μs — the
time the context resumed — and not at the originally-scheduled absolute
time, refuting the claim's universal statement about deliveries whose
execution is delayed past their scheduled fire time. -/
theorem claim3_counterexample :
    (c4Start 5000000 4711).tasks = [⟨1000000, .initialCadence⟩] ∧
      heavyContentionRun.out = [.frameOut 1000001 false ⟨5000000, 4711⟩] :=
  ⟨rfl, rfl⟩

/-- Claim C3, amended: a pause of the execution context that ends
before the scheduled fire time does not delay the delivery (it still
occurs at the scheduled absolute time); a pause extending past the
scheduled fire time makes the delivery occur when the context resumes.
Each repeat re-delivery is emitted at the (possibly late) execution
time, but the next repeat is armed at
`previous_scheduled_time + delay`, not `actual_fire_time + delay`, so
queueing delay on one repeat does not shift later repeats. -/
theorem claim3_amended (w : World) (r : ScheduledRepeat)
    (_halive : w.alive = true) (hr : w.zh.scheduledRepeat = some r) :
    slightContentionRun.out = [.frameOut 1000000 false ⟨5000000, 4711⟩] ∧
      heavyContentionRun.out = [.frameOut 1000001 false ⟨5000000, 4711⟩] ∧
      (execRepeatCadence w w.zh.currentFrameId).out
        = w.out ++ [.frameOut w.now false (repeatFrameCopy r)] ∧
      (execRepeatCadence w w.zh.currentFrameId).zh.scheduledRepeat
        = some { r with
            idle := hasQualityConverged w.zh.layerTrackers
            scheduled := r.scheduled
              + repeatDurationUs w.zh (hasQualityConverged w.zh.layerTrackers) } ∧
      (execRepeatCadence w w.zh.currentFrameId).tasks
        = w.tasks ++ [⟨r.scheduled
            + repeatDurationUs w.zh (hasQualityConverged w.zh.layerTrackers),
            .repeatCadence w.zh.currentFrameId⟩] := by
  refine ⟨rfl, rfl, ?_, ?_, ?_⟩ <;>
    simp [execRepeatCadence, hr, scheduleRepeat]

/-- Witness for `claim3_amended` at a concrete input: the repeat
pending in the `c4State` scenario after the original delivery. -/
theorem claim3_amended_witness :
    (c4State 5000000 4711 0 []).alive = true ∧
      (c4State 5000000 4711 0 []).zh.scheduledRepeat
        = some ⟨usPerSec, false, 2 * usPerSec, 5000000, 4711⟩ ∧
      (slightContentionRun.out = [.frameOut 1000000 false ⟨5000000, 4711⟩] ∧
        heavyContentionRun.out = [.frameOut 1000001 false ⟨5000000, 4711⟩] ∧
        (execRepeatCadence (c4State 5000000 4711 0 [])
            (c4State 5000000 4711 0 []).zh.currentFrameId).out
          = (c4State 5000000 4711 0 []).out
            ++ [.frameOut (c4State 5000000 4711 0 []).now false
                (repeatFrameCopy ⟨usPerSec, false, 2 * usPerSec, 5000000, 4711⟩)] ∧
        (execRepeatCadence (c4State 5000000 4711 0 [])
            (c4State 5000000 4711 0 []).zh.currentFrameId).zh.scheduledRepeat
          = some ⟨usPerSec,
              hasQualityConverged (c4State 5000000 4711 0 []).zh.layerTrackers,
              2 * usPerSec
                + repeatDurationUs (c4State 5000000 4711 0 []).zh
                  (hasQualityConverged (c4State 5000000 4711 0 []).zh.layerTrackers),
              5000000, 4711⟩ ∧
        (execRepeatCadence (c4State 5000000 4711 0 [])
            (c4State 5000000 4711 0 []).zh.currentFrameId).tasks
          = (c4State 5000000 4711 0 []).tasks
            ++ [⟨2 * usPerSec
                + repeatDurationUs (c4State 5000000 4711 0 []).zh
                  (hasQualityConverged (c4State 5000000 4711 0 []).zh.layerTrackers),
                .repeatCadence (c4State 5000000 4711 0 []).zh.currentFrameId⟩]) :=
  ⟨rfl, rfl,
    claim3_amended (c4State 5000000 4711 0 [])
      ⟨usPerSec, false, 2 * usPerSec, 5000000, 4711⟩ rfl rfl⟩

/-- Claim C4: in decoupled mode at `max_fps = 1` (frame-period one
second), the frame submitted at time 0 is delivered at `usPerSec` with
its original timestamps, and the re-delivery occurring `n`
frame-periods after the original delivery carries capture/NTP
timestamps equal to the originals advanced by exactly `n` seconds
(`n * usPerSec` microseconds of capture time, `n * 1000` milliseconds
of NTP time) when the originals were set (non-zero); when the originals
were unset (zero) they are propagated as 0 on every repeat,
independent of the current clock value. -/
theorem claim4_repeat_timestamps (ts0 ntp0 n : Nat) :
    (c4World ts0 ntp0 n).out = c4Trace ts0 ntp0 n ∧
      c4Trace ts0 ntp0 n = (List.range (n + 1)).map (c4Delivery ts0 ntp0) ∧
      (∀ k : Nat, c4Delivery ts0 ntp0 (k + 1)
          = .frameOut ((k + 2) * usPerSec) false
              ⟨if ts0 > 0 then ts0 + (k + 1) * usPerSec else ts0,
               if ntp0 > 0 then ntp0 + (k + 1) * 1000 else ntp0⟩) ∧
      c4Delivery ts0 ntp0 0 = .frameOut (1 * usPerSec) false ⟨ts0, ntp0⟩ := by
  refine ⟨?_, rfl, fun k => rfl, rfl⟩
  rw [c4World_eq]
  rfl

/-- Claim C5, counterexample.  In the convergence scenario both layers
have reported converged by 350000 μs (the trackers read
`[some true, some true]`), yet the next re-delivery occurs at
400000 μs — one short-repeat period (100000 μs) after the 300000 μs
delivery, not one idle period — because that repeat was armed before
convergence completed.  This refutes the literal reading "once every
enabled layer has reported converged, subsequent repeats occur at the
fixed idle period". -/
theorem claim5_counterexample :
    convergeMid.now = 350000 ∧
      convergeMid.zh.layerTrackers = [some true, some true] ∧
      hasQualityConverged convergeMid.zh.layerTrackers = true ∧
      convergeRun.out
        = [.frameOut 100000 false ⟨0, 0⟩, .frameOut 200000 false ⟨0, 0⟩,
           .frameOut 300000 false ⟨0, 0⟩, .frameOut 400000 false ⟨0, 0⟩,
           .frameOut 1400000 false ⟨0, 0⟩, .frameOut 2400000 false ⟨0, 0⟩] :=
  ⟨rfl, rfl, rfl, rfl⟩

/-- Claim C5, amended: while aggregate convergence is false — some
enabled layer unconverged, or the layer set just (re)configured, which
resets every configured layer to enabled-unconverged and counts as
unconverged — each repeat is armed one short-repeat period
(`1 / effective_max_fps`) after the previous scheduled fire; each
repeat armed once every enabled layer has reported converged uses the
fixed idle period instead (a short repeat already armed when
convergence completes still fires at its scheduled time, as in the
concrete trace: short repeats at 100000–400000 μs, idle repeats at
1400000 and 2400000 μs with convergence complete at 350000 μs). -/
theorem claim5_amended (w : World) (r : ScheduledRepeat)
    (_halive : w.alive = true) (hr : w.zh.scheduledRepeat = some r) :
    (∀ n : Nat, hasQualityConverged (List.replicate (n + 1) (some false)) = false) ∧
      hasQualityConverged [] = false ∧
      (∀ (v : World) (n : Nat), v.alive = true →
        (zhSetLayerCount v n).zh.layerTrackers = List.replicate n (some false)) ∧
      (execRepeatCadence w w.zh.currentFrameId).zh.scheduledRepeat
        = some { r with
            idle := hasQualityConverged w.zh.layerTrackers
            scheduled := r.scheduled
              + (if hasQualityConverged w.zh.layerTrackers then
                  kZeroHertzIdleRepeatRatePeriodUs
                 else usPerSec / effectiveMaxFps w.zh) } ∧
      convergeRun.out
        = [.frameOut 100000 false ⟨0, 0⟩, .frameOut 200000 false ⟨0, 0⟩,
           .frameOut 300000 false ⟨0, 0⟩, .frameOut 400000 false ⟨0, 0⟩,
           .frameOut 1400000 false ⟨0, 0⟩, .frameOut 2400000 false ⟨0, 0⟩] := by
  refine ⟨?_, rfl, ?_, ?_, rfl⟩
  · intro n
    simp [hasQualityConverged]
  · intro v n hv
    simp [zhSetLayerCount, hv]
  · simp [execRepeatCadence, hr, scheduleRepeat, repeatDurationUs, shortRepeatDelayUs]

/-- Witness for `claim5_amended`: the repeat pending at 350000 μs in
the convergence scenario, whose next arming (both layers converged)
uses the idle period. -/
theorem claim5_amended_witness :
    convergeMid.alive = true ∧
      convergeMid.zh.scheduledRepeat = some ⟨100000, false, 400000, 0, 0⟩ ∧
      (execRepeatCadence convergeMid convergeMid.zh.currentFrameId).zh.scheduledRepeat
        = some { origin := 100000
                 idle := hasQualityConverged convergeMid.zh.layerTrackers
                 scheduled := 400000
                   + (if hasQualityConverged convergeMid.zh.layerTrackers then
                        kZeroHertzIdleRepeatRatePeriodUs
                      else usPerSec / effectiveMaxFps convergeMid.zh)
                 origTimestampUs := 0
                 origNtpTimeMs := 0 } :=
  ⟨rfl, rfl,
    (claim5_amended convergeMid ⟨100000, false, 400000, 0, 0⟩ rfl rfl).2.2.2.1⟩

/-- Claim C6: the effective repeat rate equals the restriction when one
is present and at most the constraint `max_fps`, else the constraint
`max_fps` (and the short-repeat period is its reciprocal); a
constraints change whose new `max_fps` lies below an active restriction
clears the restriction, so subsequent short repeats follow the new
constraint-derived period, while a constraints change raising `max_fps`
above a still-lower active restriction preserves the restriction; a
constraints change also cancels the pending timer chain. -/
theorem claim6_restriction_precedence :
    ∀ (now mf nl fid rg : Nat) (rmf : Option Nat) (q : List Frame)
      (sr : Option ScheduledRepeat) (lt : List LayerTracker)
      (sof : List LayerFeedback) (rr : Bool) (tasks : List PendingTask)
      (o : List OutEvent) (v c : Nat),
      effectiveMaxFps (zhUpdateVideoSourceRestrictions
          ⟨now, true, ⟨mf, nl, rmf, q, fid, sr, lt, sof, rr, rg⟩, tasks, o⟩
          (some v)).zh
        = (if v ≤ mf then v else mf) ∧
      effectiveMaxFps (zhUpdateVideoSourceRestrictions
          ⟨now, true, ⟨mf, nl, rmf, q, fid, sr, lt, sof, rr, rg⟩, tasks, o⟩ none).zh
        = mf ∧
      shortRepeatDelayUs (zhUpdateVideoSourceRestrictions
          ⟨now, true, ⟨mf, nl, rmf, q, fid, sr, lt, sof, rr, rg⟩, tasks, o⟩
          (some v)).zh
        = usPerSec / (if v ≤ mf then v else mf) ∧
      (zhOnConstraintsChanged
          ⟨now, true, ⟨mf, nl, some v, q, fid, sr, lt, sof, rr, rg⟩, tasks, o⟩
          c).zh.restrictedMaxFps
        = (if v ≤ c then some v else none) ∧
      effectiveMaxFps (zhOnConstraintsChanged
          ⟨now, true, ⟨mf, nl, some v, q, fid, sr, lt, sof, rr, rg⟩, tasks, o⟩ c).zh
        = (if v ≤ c then v else c) ∧
      (zhOnConstraintsChanged
          ⟨now, true, ⟨mf, nl, some v, q, fid, sr, lt, sof, rr, rg⟩, tasks, o⟩
          c).zh.scheduledRepeat = none ∧
      (zhOnConstraintsChanged
          ⟨now, true, ⟨mf, nl, some v, q, fid, sr, lt, sof, rr, rg⟩, tasks, o⟩
          c).tasks
        = [⟨now + kOnDiscardedFrameRefreshFramePeriod * (usPerSec / c),
            .refreshTick (rg + 1)⟩] := by
  intro now mf nl fid rg rmf q sr lt sof rr tasks o v c
  refine ⟨?_, rfl, ?_, ?_, ?_, rfl, rfl⟩
  · by_cases h : v ≤ mf <;>
      simp [zhUpdateVideoSourceRestrictions, normalizeRestriction, effectiveMaxFps, h]
  · by_cases h : v ≤ mf <;>
      simp [zhUpdateVideoSourceRestrictions, normalizeRestriction,
        shortRepeatDelayUs, effectiveMaxFps, h]
  · by_cases h : v ≤ c <;>
      simp [zhOnConstraintsChanged, normalizeRestriction, h]
  · by_cases h : v ≤ c <;>
      simp [zhOnConstraintsChanged, normalizeRestriction, effectiveMaxFps, h]

/-- Claim C7, counterexample.  A frame is accepted at time 0 in
decoupled mode (`max_fps = 10`, constraints set) and no further frame
is accepted for a full second — far beyond
`kOnDiscardedFrameRefreshFramePeriod` frame-periods of the last
accepted frame — yet no `RequestRefreshFrame` callback ever fires: an
accepted frame cancels the requester outright rather than acting as a
reference point for re-firing, refuting the claim's reference-point
list. -/
theorem claim7_counterexample :
    frameOnlyRun.now = 1000000 ∧ refreshCount frameOnlyRun.out = 0 :=
  ⟨rfl, rfl⟩

/-- Claim C7, amended: in decoupled mode with constraints set, the
refresh requester is armed at mode activation (and re-armed by a
discard notification when not already running) to fire
`kOnDiscardedFrameRefreshFramePeriod` frame-periods later, after which
it re-fires once per frame-period indefinitely; accepting a frame
cancels it entirely — no request fires afterwards until a discard
notification re-arms it (an accepted frame is not itself a re-firing
reference point); a stale tick is a no-op.  Concretely: with no frame,
requests fire at 300000–1000000 μs (once per 100000 μs frame-period),
and none fire in the second following an accepted frame. -/
theorem claim7_amended :
    ∀ (m k t now mf nl fid rg d : Nat) (rmf : Option Nat) (q : List Frame)
      (sr : Option ScheduledRepeat) (lt : List LayerTracker)
      (sof : List LayerFeedback) (tasks : List PendingTask)
      (o : List OutEvent) (f : Frame),
      (zhInit m k t).tasks
          = [⟨t + kOnDiscardedFrameRefreshFramePeriod * (usPerSec / m),
              .refreshTick 1⟩] ∧
        (zhInit m k t).zh.refreshRunning = true ∧
        execTask ⟨now, true, ⟨mf, nl, rmf, q, fid, sr, lt, sof, true, rg⟩, tasks, o⟩
            (.refreshTick rg)
          = ⟨now, true, ⟨mf, nl, rmf, q, fid, sr, lt, sof, true, rg⟩,
              tasks ++ [⟨now + usPerSec / mf, .refreshTick rg⟩],
              o ++ [.refreshRequested now]⟩ ∧
        execTask ⟨now, true, ⟨mf, nl, rmf, q, fid, sr, lt, sof, true, rg⟩, tasks, o⟩
            (.refreshTick (rg + 1 + d))
          = ⟨now, true, ⟨mf, nl, rmf, q, fid, sr, lt, sof, true, rg⟩, tasks, o⟩ ∧
        (zhOnFrame ⟨now, true, ⟨mf, nl, rmf, q, fid, sr, lt, sof, true, rg⟩, tasks, o⟩
            f).zh.refreshRunning = false ∧
        (∀ u ∈ (zhOnFrame
            ⟨now, true, ⟨mf, nl, rmf, q, fid, sr, lt, sof, true, rg⟩, tasks, o⟩
            f).tasks, u.kind.isRefresh = false) ∧
        zhOnDiscardedFrame
            ⟨now, true, ⟨mf, nl, rmf, q, fid, sr, lt, sof, false, rg⟩, tasks, o⟩
          = ⟨now, true, ⟨mf, nl, rmf, q, fid, sr, lt, sof, true, rg + 1⟩,
              tasks ++
                [⟨now + kOnDiscardedFrameRefreshFramePeriod * (usPerSec / mf),
                  .refreshTick (rg + 1)⟩],
              o ++ [.discarded now]⟩ ∧
        zhOnDiscardedFrame
            ⟨now, true, ⟨mf, nl, rmf, q, fid, sr, lt, sof, true, rg⟩, tasks, o⟩
          = ⟨now, true, ⟨mf, nl, rmf, q, fid, sr, lt, sof, true, rg⟩, tasks,
              o ++ [.discarded now]⟩ ∧
        refreshIdleRun.out
          = [.refreshRequested 300000, .refreshRequested 400000,
             .refreshRequested 500000, .refreshRequested 600000,
             .refreshRequested 700000, .refreshRequested 800000,
             .refreshRequested 900000, .refreshRequested 1000000] ∧
        refreshCount refreshAfterFrameRun.out = 8 := by
  intro m k t now mf nl fid rg d rmf q sr lt sof tasks o f
  have hne : rg + 1 + d ≠ rg := by omega
  refine ⟨rfl, rfl, ?_, ?_, rfl, ?_, rfl, rfl, rfl, rfl⟩
  · simp [execTask, execRefreshTick, frameDelayUs]
  · simp [execTask, execRefreshTick, hne]
  · intro u hu
    simp only [zhOnFrame, Bool.not_true, if_false] at hu
    rcases List.mem_append.1 hu with hmem | hmem
    · have := (List.mem_filter.1 hmem).2
      simp only [Bool.and_eq_true, Bool.not_eq_true'] at this
      exact this.2
    · simp only [List.mem_singleton] at hmem
      subst hmem
      rfl

/-- Claim C8, counterexample.  Two frame-periods after an accepted
frame (`max_fps = 10`, so well past the "frame accepted within the last
frame-period" window), the scheduler is short-repeating; a
`ProcessKeyFrameRequest` at that instant is a complete no-op — it emits
no `RequestRefreshFrame` and changes nothing — whereas the claim's
"otherwise" branch requires it to act like an automatic refresh-request
firing at that instant. -/
theorem claim8_counterexample :
    shortRepeatRun.now = 200000 ∧
      refreshCount shortRepeatRun.out = 0 ∧
      zhProcessKeyFrameRequest shortRepeatRun = shortRepeatRun :=
  ⟨rfl, rfl, rfl⟩

/-- Claim C8, amended: `ProcessKeyFrameRequest` never emits
`RequestRefreshFrame` itself; it always resets quality convergence;
when no repeat is pending (e.g. a frame was accepted within the last
frame-period, whose deferred delivery is still in flight), or the
pending repeat is short, it does nothing more (suppressed); when an
idle repeat is pending more than one frame-period away it is replaced
by a short repeat armed one short-repeat period from now, coalescing
the request with the repeat cadence rather than duplicating the
periodic refresh timer. -/
theorem claim8_amended (w : World) (halive : w.alive = true) :
    (zhProcessKeyFrameRequest w).out = w.out ∧
      (zhProcessKeyFrameRequest w).zh.layerTrackers
        = resetConvergence w.zh.layerTrackers ∧
      (w.zh.scheduledRepeat = none →
        zhProcessKeyFrameRequest w
          = { w with zh :=
              { w.zh with layerTrackers := resetConvergence w.zh.layerTrackers } }) ∧
      (∀ r : ScheduledRepeat, w.zh.scheduledRepeat = some r → r.idle = false →
        zhProcessKeyFrameRequest w
          = { w with zh :=
              { w.zh with layerTrackers := resetConvergence w.zh.layerTrackers } }) ∧
      (∀ r : ScheduledRepeat, w.zh.scheduledRepeat = some r → r.idle = true →
        w.now + frameDelayUs w.zh < r.scheduled →
        (zhProcessKeyFrameRequest w).zh.scheduledRepeat
            = some { r with idle := false, scheduled := w.now + shortRepeatDelayUs w.zh } ∧
          (zhProcessKeyFrameRequest w).zh.currentFrameId
            = w.zh.currentFrameId + 1) ∧
      (∀ r : ScheduledRepeat, w.zh.scheduledRepeat = some r → r.idle = true →
        r.scheduled ≤ w.now + frameDelayUs w.zh →
        zhProcessKeyFrameRequest w
          = { w with zh :=
              { w.zh with layerTrackers := resetConvergence w.zh.layerTrackers } }) := by
  rcases w with ⟨now, alive, zh, tasks, o⟩
  subst halive
  refine ⟨processKeyFrameRequest_out _, ?_, ?_, ?_, ?_, ?_⟩
  · rcases hsr : zh.scheduledRepeat with _ | ⟨ori, idle, sch, ts, ntp⟩
    · simp [zhProcessKeyFrameRequest, hsr]
    · cases idle
      · simp [zhProcessKeyFrameRequest, hsr]
      · by_cases hd : sch ≤ now + usPerSec / zh.maxFps
        · simp [zhProcessKeyFrameRequest, hsr, frameDelayUs, hd]
        · simp [zhProcessKeyFrameRequest, hsr, frameDelayUs, hd]
  · intro hnone
    dsimp only at hnone
    simp [zhProcessKeyFrameRequest, hnone]
  · intro r hr hidle
    dsimp only at hr
    simp [zhProcessKeyFrameRequest, hr, hidle]
  · intro r hr hidle hd
    dsimp only at hr hd
    have hd2 : ¬ r.scheduled ≤ now + usPerSec / zh.maxFps := by
      simp [frameDelayUs] at hd
      omega
    simp [zhProcessKeyFrameRequest, hr, hidle, frameDelayUs, hd2,
      shortRepeatDelayUs, effectiveMaxFps]
  · intro r hr hidle hd
    dsimp only at hr hd
    have hd2 : r.scheduled ≤ now + usPerSec / zh.maxFps := by
      simpa [frameDelayUs] using hd
    simp [zhProcessKeyFrameRequest, hr, hidle, frameDelayUs, hd2]

/-- Witness for `claim8_amended` at two concrete inputs: a frame just
accepted (its deferred delivery still in flight, so no repeat is
pending) makes a keyframe request a pure convergence reset; and the
idle repeat pending at 250000 μs (scheduled for 1125000 μs, far beyond
one 125000 μs frame-period) is replaced by a short repeat at
375000 μs, with nothing emitted either way. -/
theorem claim8_amended_witness :
    justAcceptedRun.alive = true ∧
      justAcceptedRun.zh.scheduledRepeat = none ∧
      zhProcessKeyFrameRequest justAcceptedRun
        = { justAcceptedRun with zh :=
            { justAcceptedRun.zh with
                layerTrackers := resetConvergence justAcceptedRun.zh.layerTrackers } } ∧
      idlePendingRun.alive = true ∧
      idlePendingRun.zh.scheduledRepeat = some ⟨125000, true, 1125000, 0, 0⟩ ∧
      (zhProcessKeyFrameRequest idlePendingRun).out = idlePendingRun.out ∧
      (zhProcessKeyFrameRequest idlePendingRun).zh.scheduledRepeat
        = some ⟨125000, false,
            idlePendingRun.now + shortRepeatDelayUs idlePendingRun.zh, 0, 0⟩ :=
  ⟨rfl, rfl,
    (claim8_amended justAcceptedRun rfl).2.2.1 rfl,
    rfl, rfl,
    (claim8_amended idlePendingRun rfl).1,
    ((claim8_amended idlePendingRun rfl).2.2.2.2.1
      ⟨125000, true, 1125000, 0, 0⟩ rfl rfl (by decide)).1⟩

/-- Claim C9: layer feedback for indices beyond the configured layer
count is accepted by total functions (no fault), stored in the
out-of-range store, leaves the layer trackers untouched and therefore
has no effect on aggregate convergence; the world-level entry points
additionally emit no callback and schedule no task for any index. -/
theorem claim9_out_of_range_feedback :
    ∀ (s : ZeroHertzState) (j : Nat) (b c : Bool) (w : World) (i : Nat),
      updateLayerStatus s (s.layerTrackers.length + j) b
          = { s with storedOutOfRange :=
                s.storedOutOfRange ++ [.status (s.layerTrackers.length + j) b] } ∧
        updateLayerQualityConvergence s (s.layerTrackers.length + j) c
          = { s with storedOutOfRange :=
                s.storedOutOfRange ++ [.convergence (s.layerTrackers.length + j) c] } ∧
        hasQualityConverged
            (updateLayerStatus s (s.layerTrackers.length + j) b).layerTrackers
          = hasQualityConverged s.layerTrackers ∧
        hasQualityConverged
            (updateLayerQualityConvergence s (s.layerTrackers.length + j) c).layerTrackers
          = hasQualityConverged s.layerTrackers ∧
        (zhUpdateLayerStatus w i b).out = w.out ∧
        (zhUpdateLayerStatus w i b).tasks = w.tasks ∧
        (zhUpdateLayerQualityConvergence w i c).out = w.out ∧
        (zhUpdateLayerQualityConvergence w i c).tasks = w.tasks := by
  intro s j b c w i
  have h : ¬ s.layerTrackers.length + j < s.layerTrackers.length := by omega
  refine ⟨?_, ?_, ?_, ?_, ?_, ?_, ?_, ?_⟩
  · simp [updateLayerStatus, h]
  · simp [updateLayerQualityConvergence, h]
  · simp [updateLayerStatus, h]
  · simp [updateLayerQualityConvergence, h]
  all_goals
    cases halive : w.alive <;>
      simp [zhUpdateLayerStatus, zhUpdateLayerQualityConvergence, halive]

/-- Claim C10: once teardown has begun (the liveness flag is false), no
callback of any kind is ever emitted again — draining the task queue,
including repeat and refresh tasks already in flight, adds nothing to
the output trace, and every public entry point is a no-op; `destroy`
clears the liveness flag. -/
theorem claim10_no_callbacks_after_teardown
    (fuel upTo : Nat) (w v : World) (f : Frame) (c : Nat) (r : Option Nat)
    (n i : Nat) (b : Bool) (h : w.alive = false) :
    (runUpTo fuel upTo w).out = w.out ∧
      zhOnFrame w f = w ∧
      zhOnDiscardedFrame w = w ∧
      zhOnConstraintsChanged w c = w ∧
      zhUpdateVideoSourceRestrictions w r = w ∧
      zhProcessKeyFrameRequest w = w ∧
      zhSetLayerCount w n = w ∧
      zhUpdateLayerStatus w i b = w ∧
      zhUpdateLayerQualityConvergence w i b = w ∧
      (destroy v).alive = false := by
  refine ⟨runUpTo_dead fuel upTo w h, ?_, ?_, ?_, ?_, ?_, ?_, ?_, ?_, rfl⟩ <;>
    simp [zhOnFrame, zhOnDiscardedFrame, zhOnConstraintsChanged,
      zhUpdateVideoSourceRestrictions, zhProcessKeyFrameRequest,
      zhSetLayerCount, zhUpdateLayerStatus, zhUpdateLayerQualityConvergence, h]

/-- Witness for `claim10_no_callbacks_after_teardown`: a torn-down
scheduler with an in-flight refresh tick emits nothing when the queue
drains. -/
theorem claim10_witness :
    deadWorld.alive = false ∧
      ((runUpTo 40 5000000 deadWorld).out = deadWorld.out ∧
        zhOnFrame deadWorld ⟨1, 2⟩ = deadWorld ∧
        zhOnDiscardedFrame deadWorld = deadWorld ∧
        zhOnConstraintsChanged deadWorld 5 = deadWorld ∧
        zhUpdateVideoSourceRestrictions deadWorld (some 3) = deadWorld ∧
        zhProcessKeyFrameRequest deadWorld = deadWorld ∧
        zhSetLayerCount deadWorld 2 = deadWorld ∧
        zhUpdateLayerStatus deadWorld 0 true = deadWorld ∧
        zhUpdateLayerQualityConvergence deadWorld 0 true = deadWorld ∧
        (destroy deadWorld).alive = false) :=
  ⟨rfl, claim10_no_callbacks_after_teardown 40 5000000 deadWorld deadWorld
    ⟨1, 2⟩ 5 (some 3) 2 0 true rfl⟩

end FrameCadence
